import Mathlib

/-!
Verification of tensorflow/compiler/xla/python/local_client.h.

The embedding follows the header directly for the members whose bodies appear
inline there (PyLocalBuffer's default constructor, Delete, device_buffer,
PyLocalExecutable::num_replicas, PyLocalExecutable::Delete, the accessors of
PyLocalClient).  Members that are only declared in the header — FromPython,
ToPython, AsShapedBuffer, DestructureTuple, Execute, ExecutePerReplica,
DeviceOrdinals — and the collaborating types that live in other files
(PySharedDeviceBuffer, WorkerThread) are modelled from the specification, as
noted on each such definition.
-/

namespace Xla

/-- Shapes as used by this header (xla::Shape): a default-constructed shape is
invalid (element type PRIMITIVE_TYPE_INVALID); otherwise a shape is an array
with its dimensions or a tuple of element shapes. -/
inductive Shape where
  | invalid : Shape
  | array (dimensions : List Nat) : Shape
  | tuple (elements : List Shape) : Shape


/-- Modelled from the spec: a host value (a pybind11::object argument) is an
array of raw bytes with its dimensions, or a tuple of host values (spec
section 3 and Glossary, "Host value"). -/
inductive HostValue where
  | array (dimensions : List Nat) (data : List Nat) : HostValue
  | tuple (elements : List HostValue) : HostValue


/-- Modelled from the spec: PySharedDeviceBuffer (shared_device_buffer.h is
not in src/) is one device-memory value on a device ordinal: a leaf array
allocation holding its bytes, or a tuple node linking child buffers (spec
section 3, "DeviceBuffer"). -/
inductive PySharedDeviceBuffer where
  | leaf (device_ordinal : Nat) (dimensions : List Nat) (data : List Nat) :
      PySharedDeviceBuffer
  | tup (device_ordinal : Nat) (children : List PySharedDeviceBuffer) :
      PySharedDeviceBuffer


/-- The device ordinal a buffer tree resides on (its root node's ordinal). -/
def PySharedDeviceBuffer.device_ordinal : PySharedDeviceBuffer → Nat
  | .leaf d _ _ => d
  | .tup d _ => d

/-- PyLocalClient (local_client.h lines 43-72): the claims only consult its
device count; the per-device execution queues are modelled separately as
ClientState below. -/
structure PyLocalClient where
  device_count : Nat


/-- Error codes of the Status values the claims distinguish. -/
inductive ErrorCode where
  | invalidArgument : ErrorCode
  | failedPrecondition : ErrorCode
  | internalError : ErrorCode


/-- xla::Status as used here: an error code plus a message. -/
structure Status where
  code : ErrorCode
  message : String


def invalidArgumentCountError : Status :=
  ⟨.invalidArgument, "number of argument lists does not equal num_replicas"⟩

def deletedExecutableError : Status :=
  ⟨.failedPrecondition, "executable has been deleted"⟩

def deletedBufferError : Status :=
  ⟨.failedPrecondition, "buffer has been deleted"⟩

def wrongDeviceError : Status :=
  ⟨.invalidArgument, "argument buffer deleted or not on the assigned device"⟩

def missingResultError : Status :=
  ⟨.internalError, "replica result missing"⟩

def nonTupleError : Status :=
  ⟨.invalidArgument, "DestructureTuple called on a non-tuple buffer"⟩

def shapeMismatchError : Status :=
  ⟨.internalError, "tuple shape does not match device buffer"⟩

/-- PyLocalBuffer (local_client.h lines 75-113): on_host_shape_, the
shared_ptr device_buffer_ (none models the null pointer) and the client_
back-pointer (none models nullptr). -/
structure PyLocalBuffer where
  on_host_shape : Shape
  device_buffer : Option PySharedDeviceBuffer
  client : Option PyLocalClient


/-- PyLocalBuffer() = default (line 87): the default-constructed handle. The
shared_ptr device_buffer_ default-constructs to null, client_ has the member
initializer nullptr (line 112), and on_host_shape_ default-constructs to the
invalid shape. -/
def defaultPyLocalBuffer : PyLocalBuffer :=
  ⟨Shape.invalid, none, none⟩

/-- Delete (lines 97-100): device_buffer_ = nullptr; client_ = nullptr.
No other member is assigned; in particular on_host_shape_ is kept. -/
def PyLocalBuffer.Delete (b : PyLocalBuffer) : PyLocalBuffer :=
  { b with device_buffer := none, client := none }

/-- ShapedBuffer: the view type returned by AsShapedBuffer — the host shape
together with the viewed device buffers. -/
structure ShapedBuffer where
  on_host_shape : Shape
  buffers : PySharedDeviceBuffer


/-- Modelled from the spec: AsShapedBuffer's body is not in src/; per its
comment (lines 102-103) it returns a view of the device-buffer DAG, borrowing
the allocation (spec 4.1).  Its declared return type (line 104) is a plain
ShapedBuffer with no error channel, and building the view reads the
device_buffer_ pointer, so on a deleted handle (null device_buffer_) there is
no value to produce: `none` here models that null dereference — undefined
behavior, not an error return. -/
def PyLocalBuffer.AsShapedBuffer (b : PyLocalBuffer) : Option ShapedBuffer :=
  b.device_buffer.map (fun t => ⟨b.on_host_shape, t⟩)

mutual

/-- The logical shape of a host value. -/
def HostValue.shape : HostValue → Shape
  | .array dims _ => .array dims
  | .tuple elems => .tuple (hostShapeList elems)

/-- Shapes of a list of host values. -/
def hostShapeList : List HostValue → List Shape
  | [] => []
  | v :: vs => HostValue.shape v :: hostShapeList vs

end

mutual

/-- Modelled from the spec: the collaborator function "convert host value →
device buffer(s) given a device ordinal" (spec sections 1 and 6,
convertHostValue): arrays become leaf allocations on the ordinal, tuples
become tuple nodes over the converted elements. -/
def convertHostValue : HostValue → Nat → PySharedDeviceBuffer
  | .array dims data, d => .leaf d dims data
  | .tuple elems, d => .tup d (convertHostValueList elems d)

/-- Pointwise conversion of a list of host values. -/
def convertHostValueList : List HostValue → Nat → List PySharedDeviceBuffer
  | [], _ => []
  | v :: vs, d => convertHostValue v d :: convertHostValueList vs d

end

mutual

/-- Modelled from the spec: the inverse collaborator function reading a device
buffer back into a host value (spec section 6, toHostValue). -/
def toHostValue : PySharedDeviceBuffer → HostValue
  | .leaf _ dims data => .array dims data
  | .tup _ children => .tuple (toHostValueList children)

/-- Pointwise read-back of a list of device buffers. -/
def toHostValueList : List PySharedDeviceBuffer → List HostValue
  | [] => []
  | c :: cs => toHostValue c :: toHostValueList cs

end

/-- Modelled from the spec: FromPython (declared lines 77-79, body not in
src/) converts one host value into a device-resident buffer on
device_ordinal, validating the ordinal against the client (spec sections 4.4
step 1 and 7, validation errors). -/
def PyLocalBuffer.FromPython (argument : HostValue) (client : PyLocalClient)
    (device_ordinal : Nat) : Except Status PyLocalBuffer :=
  if device_ordinal < client.device_count then
    .ok ⟨argument.shape, some (convertHostValue argument device_ordinal), some client⟩
  else
    .error ⟨.invalidArgument, "invalid device ordinal"⟩

/-- Modelled from the spec: ToPython (line 91, body not in src/) copies the
device buffer back into a host value; on a deleted handle it fails
deterministically (spec sections 3 and 8). -/
def PyLocalBuffer.ToPython (b : PyLocalBuffer) : Except Status HostValue :=
  match b.device_buffer with
  | none => .error deletedBufferError
  | some t => .ok (toHostValue t)

/-- Modelled from the spec: DestructureTuple (lines 106-107, body not in
src/) splits a tuple-valued buffer into its constituent elements: each
returned PyLocalBuffer is a new shared reference to the already-existing
child sub-DAG — the child tree itself, no copy and no new allocation (spec
4.1); a deleted handle and a non-tuple buffer are validation errors (spec
section 7). -/
def PyLocalBuffer.DestructureTuple (b : PyLocalBuffer) :
    Except Status (List PyLocalBuffer) :=
  match b.device_buffer with
  | none => .error deletedBufferError
  | some (.leaf _ _ _) => .error nonTupleError
  | some (.tup _ children) =>
    match b.on_host_shape with
    | Shape.tuple elements =>
      if elements.length = children.length then
        .ok ((elements.zip children).map fun p => ⟨p.1, some p.2, b.client⟩)
      else .error shapeMismatchError
    | _ => .error shapeMismatchError

/-- The device-buffer trees of a list of handles, if all are live. -/
def collectTrees : List PyLocalBuffer → Option (List PySharedDeviceBuffer)
  | [] => some []
  | b :: bs =>
    match b.device_buffer, collectTrees bs with
    | some t, some ts => some (t :: ts)
    | _, _ => none

/-- Modelled from the spec: re-grouping destructured element buffers back
into one tuple-shaped buffer on device ordinal d (spec section 8
"destructure ... followed by re-grouping"). -/
def regroupTuple (d : Nat) (client : Option PyLocalClient)
    (bs : List PyLocalBuffer) : Except Status PyLocalBuffer :=
  match collectTrees bs with
  | none => .error deletedBufferError
  | some ts =>
    .ok ⟨Shape.tuple (bs.map (fun b => b.on_host_shape)), some (.tup d ts), client⟩

/-- ExecutableBuildOptions, restricted to what this header reads from it:
num_replicas (line 128). -/
structure ExecutableBuildOptions where
  num_replicas : Nat

/-- The wrapped xla::LocalExecutable, as used by this header: only its
build_options() are consulted (line 128). -/
structure LocalExecutable where
  build_options : ExecutableBuildOptions

/-- PyLocalExecutable (local_client.h lines 117-153): the unique_ptr
executable_ (none models the null pointer left by Delete), the const
device_assignment_, and the const client_ back-pointer.  The DeviceAssignment
matrix is used here with computation count 1, so it is a list mapping each
replica index to its device ordinal. -/
structure PyLocalExecutable where
  executable : Option LocalExecutable
  device_assignment : List Nat
  client : Option PyLocalClient

/-- num_replicas (lines 127-129): returns
executable_->build_options().num_replicas().  After Delete(), executable_ is
null and the arrow operator dereferences it: `none` here models that null
dereference — a crash / undefined behavior, not an error return; the declared
return type int has no error channel. -/
def PyLocalExecutable.num_replicas (e : PyLocalExecutable) : Option Nat :=
  e.executable.map (fun ex => ex.build_options.num_replicas)

/-- Modelled from the spec: DeviceOrdinals (lines 131-132, body not in src/):
per its comment it returns the device ordinals to which each replica is
assigned, read from device_assignment_. -/
def PyLocalExecutable.DeviceOrdinals (e : PyLocalExecutable) : List Nat :=
  e.device_assignment

/-- Delete (line 147): executable_ = nullptr.  No other member is assigned. -/
def PyLocalExecutable.Delete (e : PyLocalExecutable) : PyLocalExecutable :=
  { e with executable := none }

/-- The device ordinal assigned to replica r (deviceAssignment[r]). -/
def devOf (e : PyLocalExecutable) (r : Nat) : Nat :=
  e.device_assignment.getD r 0

/-- Modelled from the spec: the per-device execution queues (execute_threads_,
lines 62-64 and 69-71; worker_thread.h is not in src/).  `queues d` is the
submission log of device d's dedicated worker: the replica indices of the
tasks submitted to it, in submission order (spec 4.2). -/
structure ClientState where
  queues : Nat → List Nat

/-- Submit the task of replica r to device d's queue (spec 4.2, Submit). -/
def submitTask (st : ClientState) (d : Nat) (r : Nat) : ClientState :=
  ⟨fun q => if q = d then st.queues q ++ [r] else st.queues q⟩

/-- Submit one task per replica in [0, num) to its assigned device's queue
(spec 4.4, multi-replica dispatch). -/
def submitAll (e : PyLocalExecutable) (num : Nat) (st : ClientState) : ClientState :=
  (List.range num).foldl (fun s r => submitTask s (devOf e r) r) st

/-- An argument buffer passes per-replica call-site validation for device d:
it is non-deleted and resident on d (spec 4.4 step 1). -/
def bufferOnDevice (b : PyLocalBuffer) (d : Nat) : Bool :=
  match b.device_buffer with
  | some t => t.device_ordinal == d
  | none => false

/-- Modelled from the spec: the outcome of the task submitted for replica r on
device d (spec 4.4): per-replica call-site validation of the argument list,
then the device-level execution, abstracted by `run` (the low-level
transfer/execute primitives are collaborators, spec section 1). -/
def replicaTaskOutcome
    (run : Nat → Nat → List PyLocalBuffer → Except Status PyLocalBuffer)
    (r d : Nat) (args : List PyLocalBuffer) : Except Status PyLocalBuffer :=
  if args.all (fun b => bufferOnDevice b d) then run r d args
  else .error wrongDeviceError

/-- The outcome recorded for replica r in the completion log (the list of
(replica, outcome) pairs in real-time completion order). -/
def lookupOutcome (completed : List (Nat × Except Status PyLocalBuffer))
    (r : Nat) : Except Status PyLocalBuffer :=
  match completed.find? (fun p => p.1 == r) with
  | some p => p.2
  | none => .error missingResultError

/-- Modelled from the spec: the join step resolves the replica outcomes in
replica-index order: the first error encountered by index aborts the call with
that error, discarding any ok outputs; otherwise all values are returned in
index order (spec 4.4 error policy and section 5). -/
def collectResults :
    List (Except Status PyLocalBuffer) → Except Status (List PyLocalBuffer)
  | [] => .ok []
  | .error s :: _ => .error s
  | .ok v :: rest =>
    match collectResults rest with
    | .error s => .error s
    | .ok vs => .ok (v :: vs)

/-- Modelled from the spec: ExecutePerReplica (declared lines 144-145, body
not in src/).  A deleted executable fails (spec section 3); an argument-list
count different from num_replicas is an invalid-argument caller error,
returned before any task is submitted (spec 4.4 precondition); otherwise one
task per replica is submitted to the queue of its assigned device, every task
runs (none is aborted), the tasks complete in the real-time order given by
completionOrder, and the join resolves the completion log in replica-index
order. -/
def PyLocalExecutable.ExecutePerReplica (e : PyLocalExecutable)
    (argument_handles : List (List PyLocalBuffer))
    (run : Nat → Nat → List PyLocalBuffer → Except Status PyLocalBuffer)
    (completionOrder : List Nat) (st : ClientState) :
    Except Status (List PyLocalBuffer) × ClientState :=
  match e.executable with
  | none => (.error deletedExecutableError, st)
  | some ex =>
    if argument_handles.length = ex.build_options.num_replicas then
      let completed := completionOrder.map fun r =>
        (r, replicaTaskOutcome run r (devOf e r) (argument_handles.getD r []))
      (collectResults
          ((List.range ex.build_options.num_replicas).map (lookupOutcome completed)),
        submitAll e ex.build_options.num_replicas st)
    else (.error invalidArgumentCountError, st)

/-- Modelled from the spec: Execute (lines 138-139, body not in src/), the
single-replica protocol of spec 4.4: a deleted executable fails; the argument
list is validated for replica 0's assigned device, the task is submitted to
that device's queue, and the caller blocks for its outcome. -/
def PyLocalExecutable.Execute (e : PyLocalExecutable)
    (argument_handles : List PyLocalBuffer)
    (run : Nat → Nat → List PyLocalBuffer → Except Status PyLocalBuffer)
    (st : ClientState) : Except Status PyLocalBuffer × ClientState :=
  match e.executable with
  | none => (.error deletedExecutableError, st)
  | some _ =>
    (replicaTaskOutcome run 0 (devOf e 0) argument_handles,
      submitTask st (devOf e 0) 0)

/-- Modelled from the spec: the timeline of the dedicated WorkerThread of one
device ordinal (worker_thread.h is not in src/; lines 69-71 and spec 4.2).
The worker runs the tasks submitted to its queue sequentially, task k + 1
starting when task k finishes; t0 is the worker's start time and dur k the
k-th task's duration.  Distinct devices' workers are independent: their
timelines share no state, so they are separate instances of this function. -/
def startTime (t0 : Nat) (dur : Nat → Nat) : Nat → Nat
  | 0 => t0
  | k + 1 => startTime t0 dur k + dur k

/-- The finish time of the k-th task of one device worker. -/
def finishTime (t0 : Nat) (dur : Nat → Nat) (k : Nat) : Nat :=
  startTime t0 dur k + dur k

/-- Modelled from the spec: one node of the PySharedDeviceBuffer DAG in the
explicit-heap ownership model (shared_device_buffer.h is not in src/).  Node
ids stand for shared_ptr pointee identities; a node links the ids of its
children (spec section 3, "DeviceBuffer"). -/
structure BufferNode where
  device_ordinal : Nat
  children : List Nat

/-- The owning fields of one PyLocalBuffer handle (lines 109-112) in the
ownership model: the shared_ptr device_buffer_ as an optional node id, and
the client_ pointer. -/
structure HandleRef where
  device_buffer : Option Nat
  client : Option Nat

/-- The ownership model's state: the allocated nodes of the device-buffer
DAG, and the handles currently in existence. -/
structure OwnershipState where
  nodes : List (Nat × BufferNode)
  handles : List HandleRef

/-- The child node ids of node n. -/
def nodeChildren (nodes : List (Nat × BufferNode)) (n : Nat) : List Nat :=
  match nodes.find? (fun p => p.1 == n) with
  | some p => p.2.children
  | none => []

/-- Node c belongs to the sub-DAG rooted at node a (a itself, or reachable
through child links). -/
inductive Reaches (nodes : List (Nat × BufferNode)) : Nat → Nat → Prop where
  | refl (n : Nat) : Reaches nodes n n
  | step {a b c : Nat} : Reaches nodes a b → c ∈ nodeChildren nodes b →
      Reaches nodes a c

/-- Modelled from the spec: node n's device memory is retained while some
live handle holds a shared reference to n or an ancestor of n; it is released
exactly when the last such reference is dropped (spec section 3, DeviceBuffer
ownership). -/
def retained (s : OwnershipState) (n : Nat) : Prop :=
  ∃ (j : Nat) (h : HandleRef) (rt : Nat),
    s.handles[j]? = some h ∧ h.device_buffer = some rt ∧
      Reaches s.nodes rt n

/-- PyLocalBuffer::Delete (lines 97-100) applied to handle i of the ownership
model: device_buffer_ = nullptr; client_ = nullptr.  Nothing else is
assigned: no node is touched and no other handle is touched. -/
def deleteHandle (s : OwnershipState) (i : Nat) : OwnershipState :=
  { s with handles := s.handles.set i ⟨none, none⟩ }

/-- The operations of PyLocalExecutable's public interface that could touch
its state.  Execute and ExecutePerReplica (modelled above) read the
executable and submit device tasks; they assign no member of the object, so
they leave the record unchanged; Delete (line 147) nulls executable_ only. -/
inductive ExecOp where
  | execute (args : List PyLocalBuffer)
  | executePerReplica (argss : List (List PyLocalBuffer))
  | delete

/-- The effect of one interface operation on a PyLocalExecutable's state. -/
def applyOp (e : PyLocalExecutable) : ExecOp → PyLocalExecutable
  | .execute _ => e
  | .executePerReplica _ => e
  | .delete => e.Delete

mutual

theorem toHostValue_convertHostValue :
    ∀ (v : HostValue) (d : Nat), toHostValue (convertHostValue v d) = v
  | .array _ _, _ => rfl
  | .tuple elems, d => by
    rw [convertHostValue, toHostValue,
      toHostValueList_convertHostValueList elems d]

theorem toHostValueList_convertHostValueList :
    ∀ (vs : List HostValue) (d : Nat),
      toHostValueList (convertHostValueList vs d) = vs
  | [], _ => rfl
  | v :: vs, d => by
    rw [convertHostValueList, toHostValueList,
      toHostValue_convertHostValue v d,
      toHostValueList_convertHostValueList vs d]

end

theorem lookupOutcome_map {g : Nat → Except Status PyLocalBuffer} :
    ∀ (order : List Nat) (r : Nat), r ∈ order →
      lookupOutcome (order.map fun x => (x, g x)) r = g r
  | [], r, h => absurd h (List.not_mem_nil r)
  | a :: tl, r, h => by
    by_cases har : a = r
    · subst har
      simp [lookupOutcome]
    · have hmem : r ∈ tl := by
        rcases List.mem_cons.mp h with h1 | h2
        · exact absurd h1.symm har
        · exact h2
      have hind : lookupOutcome (tl.map fun x => (x, g x)) r = g r :=
        lookupOutcome_map tl r hmem
      simp only [List.map_cons, lookupOutcome] at hind ⊢
      rw [List.find?_cons_of_neg _ (by simp [har])]
      exact hind

theorem collectResults_map_ok {α : Type} (g : α → Except Status PyLocalBuffer)
    (f : α → PyLocalBuffer) :
    ∀ (l : List α), (∀ a ∈ l, g a = .ok (f a)) →
      collectResults (l.map g) = .ok (l.map f)
  | [], _ => rfl
  | a :: l, h => by
    have ha : g a = .ok (f a) := h a (List.mem_cons_self a l)
    have hl : collectResults (l.map g) = .ok (l.map f) :=
      collectResults_map_ok g f l (fun x hx => h x (List.mem_cons_of_mem a hx))
    simp [ha, collectResults, hl]

theorem collectResults_error_append (s : Status) :
    ∀ (xs ys : List (Except Status PyLocalBuffer)),
      collectResults xs = .error s →
      collectResults (xs ++ ys) = .error s
  | [], _, h => by simp [collectResults] at h
  | .error s2 :: xs, ys, h => by
    simp only [collectResults] at h
    simp only [List.cons_append, collectResults]
    exact h
  | .ok v :: xs, ys, h => by
    cases hc : collectResults xs with
    | error s2 =>
      simp only [collectResults, hc, Except.error.injEq] at h
      have hind : collectResults (xs.append ys) = Except.error s2 :=
        collectResults_error_append s2 xs ys hc
      simp only [List.cons_append, collectResults, hind, h]
    | ok vs =>
      simp only [collectResults, hc] at h
      exact Except.noConfusion h

theorem collectResults_ok_append (s : Status) :
    ∀ (xs ys : List (Except Status PyLocalBuffer)),
      (∀ x ∈ xs, ∃ v, x = .ok v) →
      collectResults ys = .error s →
      collectResults (xs ++ ys) = .error s
  | [], ys, _, hy => by simpa using hy
  | x :: xs, ys, hx, hy => by
    obtain ⟨v, hv⟩ := hx x (List.mem_cons_self x xs)
    subst hv
    have hind : collectResults (xs.append ys) = Except.error s :=
      collectResults_ok_append s xs ys
        (fun a ha => hx a (List.mem_cons_of_mem _ ha)) hy
    simp only [List.cons_append, collectResults, hind]

theorem collectResults_range_error (g : Nat → Except Status PyLocalBuffer)
    (s : Status) :
    ∀ (R k : Nat), k < R → (∀ j, j < k → ∃ v, g j = .ok v) →
      g k = .error s →
      collectResults ((List.range R).map g) = .error s := by
  intro R
  induction R with
  | zero => intro k hk; omega
  | succ R ih =>
    intro k hk hok herr
    rw [List.range_succ, List.map_append]
    by_cases hkR : k < R
    · exact collectResults_error_append s _ _ (ih k hkR hok herr)
    · have hkeq : k = R := by omega
      subst hkeq
      apply collectResults_ok_append s
      · intro x hx
        simp only [List.mem_map, List.mem_range] at hx
        obtain ⟨j, hj, rfl⟩ := hx
        exact hok j hj
      · simp [collectResults, herr]

theorem mem_queues_submitTask {st : ClientState} {q x : Nat} (d r : Nat)
    (h : x ∈ st.queues q) : x ∈ (submitTask st d r).queues q := by
  simp only [submitTask]
  by_cases hq : q = d
  · simp only [hq, if_pos rfl]
    exact List.mem_append_left _ (hq ▸ h)
  · simp only [if_neg hq]
    exact h

theorem submitTask_self (st : ClientState) (d r : Nat) :
    r ∈ (submitTask st d r).queues d := by
  simp [submitTask]

theorem mem_queues_foldl (e : PyLocalExecutable) :
    ∀ (l : List Nat) (st : ClientState) (q x : Nat),
      x ∈ st.queues q →
      x ∈ ((l.foldl (fun s r => submitTask s (devOf e r) r) st).queues q)
  | [], _, _, _, h => h
  | a :: l, _, q, x, h =>
    mem_queues_foldl e l _ q x (mem_queues_submitTask (devOf e a) a h)

theorem mem_queues_submitAll_of_mem (e : PyLocalExecutable) :
    ∀ (l : List Nat) (st : ClientState) (r : Nat), r ∈ l →
      r ∈ ((l.foldl (fun s x => submitTask s (devOf e x) x) st).queues (devOf e r))
  | [], _, r, h => absurd h (List.not_mem_nil r)
  | a :: l, st, r, h => by
    rcases List.mem_cons.mp h with h1 | h2
    · subst h1
      exact mem_queues_foldl e l _ _ _ (submitTask_self st (devOf e r) r)
    · exact mem_queues_submitAll_of_mem e l _ r h2

theorem mem_queues_submitAll (e : PyLocalExecutable) (num : Nat)
    (st : ClientState) (r : Nat) (h : r < num) :
    r ∈ (submitAll e num st).queues (devOf e r) :=
  mem_queues_submitAll_of_mem e (List.range num) st r (List.mem_range.mpr h)

theorem startTime_le_startTime (t0 : Nat) (dur : Nat → Nat) {k m : Nat}
    (h : k ≤ m) : startTime t0 dur k ≤ startTime t0 dur m := by
  induction m with
  | zero =>
    have hk : k = 0 := Nat.le_zero.mp h
    subst hk
    exact Nat.le_refl _
  | succ m ih =>
    by_cases hk : k = m + 1
    · subst hk
      exact Nat.le_refl _
    · have hkm : k ≤ m := by omega
      exact Nat.le_trans (ih hkm) (Nat.le_add_right _ _)

theorem collectTrees_map (c : Option PyLocalClient) :
    ∀ (l : List (Shape × PySharedDeviceBuffer)),
      collectTrees (l.map fun p => ⟨p.1, some p.2, c⟩) =
        some (l.map Prod.snd)
  | [] => rfl
  | p :: l => by
    simp only [List.map_cons, collectTrees, collectTrees_map c l]

/-- C1: a call to ExecutePerReplica whose sequence of per-replica argument
lists has length different from num_replicas() returns the invalid-argument
validation error and submits no task to any device execution queue: the
queue state is returned unchanged. -/
theorem executePerReplica_wrong_count_rejected
    (e : PyLocalExecutable) (ex : LocalExecutable)
    (argss : List (List PyLocalBuffer))
    (run : Nat → Nat → List PyLocalBuffer → Except Status PyLocalBuffer)
    (order : List Nat) (st : ClientState)
    (hlive : e.executable = some ex)
    (hlen : argss.length ≠ ex.build_options.num_replicas) :
    (e.ExecutePerReplica argss run order st).1 = .error invalidArgumentCountError ∧
      (e.ExecutePerReplica argss run order st).2 = st := by
  constructor
  · simp [PyLocalExecutable.ExecutePerReplica, hlive, hlen]
  · simp [PyLocalExecutable.ExecutePerReplica, hlive, hlen]

/-- Witness for C1: 1 argument list against num_replicas = 2; the call
returns the invalid-argument error and leaves the (empty) queues unchanged. -/
theorem executePerReplica_wrong_count_rejected_witness :
    ((⟨some ⟨⟨2⟩⟩, [0, 1], none⟩ : PyLocalExecutable).executable = some ⟨⟨2⟩⟩) ∧
    ([([] : List PyLocalBuffer)].length ≠
      (⟨⟨2⟩⟩ : LocalExecutable).build_options.num_replicas) ∧
    (((⟨some ⟨⟨2⟩⟩, [0, 1], none⟩ : PyLocalExecutable).ExecutePerReplica [[]]
        (fun _ _ _ => .error missingResultError) [] ⟨fun _ => []⟩).1 =
      .error invalidArgumentCountError ∧
     ((⟨some ⟨⟨2⟩⟩, [0, 1], none⟩ : PyLocalExecutable).ExecutePerReplica [[]]
        (fun _ _ _ => .error missingResultError) [] ⟨fun _ => []⟩).2 =
      ⟨fun _ => []⟩) :=
  ⟨rfl, by decide,
    executePerReplica_wrong_count_rejected _ _ _ _ _ _ rfl (by decide)⟩

/-- C2 counterexample: after Delete(), num_replicas() does not return a
deterministic error — its body (line 128) dereferences the nulled
executable_ pointer, modelled by `none`, which is a crash / undefined
behavior, and its return type int has no error channel; likewise
AsShapedBuffer (return type ShapedBuffer, line 104) has no error channel and
dereferences the nulled device_buffer_ on a deleted buffer. -/
theorem num_replicas_after_delete_crashes :
    (PyLocalExecutable.Delete ⟨some ⟨⟨2⟩⟩, [0, 1], none⟩).num_replicas = none ∧
    (PyLocalBuffer.Delete
      ⟨Shape.array [1], some (.leaf 0 [1] [7]), none⟩).AsShapedBuffer = none :=
  ⟨rfl, rfl⟩

/-- C2 (amended): every operation with an error channel invoked after
Delete() fails with a deterministic error — Execute and ExecutePerReplica on
a deleted executable, ToPython and DestructureTuple on a deleted buffer —
while num_replicas() and AsShapedBuffer(), whose return types carry no error
channel, instead dereference the nulled pointer (see the counterexample). -/
theorem operations_after_delete_fail
    (e : PyLocalExecutable) (args : List PyLocalBuffer)
    (argss : List (List PyLocalBuffer))
    (run : Nat → Nat → List PyLocalBuffer → Except Status PyLocalBuffer)
    (order : List Nat) (st : ClientState) (b : PyLocalBuffer) :
    (e.Delete.Execute args run st).1 = .error deletedExecutableError ∧
    (e.Delete.ExecutePerReplica argss run order st).1 =
      .error deletedExecutableError ∧
    b.Delete.ToPython = .error deletedBufferError ∧
    b.Delete.DestructureTuple = .error deletedBufferError :=
  ⟨rfl, rfl, rfl, rfl⟩

/-- C3: a successful ExecutePerReplica over R = num_replicas replicas returns
the sequence of the R replica outputs aligned to replica index — entry r is
the outcome of replica r's task on its assigned device devOf e r — for every
real-time completion order that completes each replica, hence independently
of which replica's device finishes first. -/
theorem executePerReplica_result_index_aligned
    (e : PyLocalExecutable) (ex : LocalExecutable)
    (argss : List (List PyLocalBuffer))
    (run : Nat → Nat → List PyLocalBuffer → Except Status PyLocalBuffer)
    (order : List Nat) (st : ClientState) (out : Nat → PyLocalBuffer)
    (hlive : e.executable = some ex)
    (hlen : argss.length = ex.build_options.num_replicas)
    (hcover : ∀ r, r < ex.build_options.num_replicas → r ∈ order)
    (hok : ∀ r, r < ex.build_options.num_replicas →
      replicaTaskOutcome run r (devOf e r) (argss.getD r []) = .ok (out r)) :
    (e.ExecutePerReplica argss run order st).1 =
      .ok ((List.range ex.build_options.num_replicas).map out) := by
  have hg : ∀ r ∈ List.range ex.build_options.num_replicas,
      lookupOutcome (order.map fun x =>
        (x, replicaTaskOutcome run x (devOf e x) (argss.getD x []))) r =
        .ok (out r) := by
    intro r hr
    have hrR := List.mem_range.mp hr
    rw [lookupOutcome_map order r (hcover r hrR)]
    exact hok r hrR
  simp only [PyLocalExecutable.ExecutePerReplica, hlive, hlen, if_pos]
  exact collectResults_map_ok _ out _ hg

/-- Witness for C3: num_replicas = 2, devices [0, 1], both replicas succeed,
and the completion order [1, 0] (replica 1 finishes first) still yields the
index-aligned result sequence. -/
theorem executePerReplica_result_index_aligned_witness :
    ((⟨some ⟨⟨2⟩⟩, [0, 1], none⟩ : PyLocalExecutable).executable = some ⟨⟨2⟩⟩) ∧
    ([([] : List PyLocalBuffer), []].length =
      (⟨⟨2⟩⟩ : LocalExecutable).build_options.num_replicas) ∧
    (∀ r, r < (⟨⟨2⟩⟩ : LocalExecutable).build_options.num_replicas →
      r ∈ [1, 0]) ∧
    (∀ r, r < (⟨⟨2⟩⟩ : LocalExecutable).build_options.num_replicas →
      replicaTaskOutcome
        (fun r _ _ => .ok ⟨Shape.array [r], none, none⟩) r
        (devOf ⟨some ⟨⟨2⟩⟩, [0, 1], none⟩ r)
        ([([] : List PyLocalBuffer), []].getD r []) =
        .ok ⟨Shape.array [r], none, none⟩) ∧
    ((⟨some ⟨⟨2⟩⟩, [0, 1], none⟩ : PyLocalExecutable).ExecutePerReplica
        [[], []] (fun r _ _ => .ok ⟨Shape.array [r], none, none⟩) [1, 0]
        ⟨fun _ => []⟩).1 =
      .ok ((List.range 2).map fun r => ⟨Shape.array [r], none, none⟩) :=
  ⟨rfl, rfl, by decide,
    fun r hr => by interval_cases r <;> rfl,
    executePerReplica_result_index_aligned _ _ _ _ _ _ _ rfl rfl (by decide)
      (fun r hr => by interval_cases r <;> rfl)⟩

/-- C4: if at least one replica's task fails, ExecutePerReplica fails with
the error of the failing replica of smallest index, for every real-time
completion order covering the replicas — not the failure that occurred first
in time; every replica's task is still submitted to its device's queue (the
already-submitted replicas are not aborted), and the ok outputs of the other
replicas are discarded: only the error is returned. -/
theorem executePerReplica_first_error_by_index
    (e : PyLocalExecutable) (ex : LocalExecutable)
    (argss : List (List PyLocalBuffer))
    (run : Nat → Nat → List PyLocalBuffer → Except Status PyLocalBuffer)
    (order : List Nat) (st : ClientState) (r0 : Nat) (s0 : Status)
    (hlive : e.executable = some ex)
    (hlen : argss.length = ex.build_options.num_replicas)
    (hcover : ∀ r, r < ex.build_options.num_replicas → r ∈ order)
    (hr0 : r0 < ex.build_options.num_replicas)
    (herr : replicaTaskOutcome run r0 (devOf e r0) (argss.getD r0 []) =
      .error s0)
    (hbefore : ∀ j, j < r0 →
      ∃ v, replicaTaskOutcome run j (devOf e j) (argss.getD j []) = .ok v) :
    (e.ExecutePerReplica argss run order st).1 = .error s0 ∧
    ∀ r, r < ex.build_options.num_replicas →
      r ∈ (e.ExecutePerReplica argss run order st).2.queues (devOf e r) := by
  constructor
  · simp only [PyLocalExecutable.ExecutePerReplica, hlive, hlen, if_pos]
    apply collectResults_range_error _ s0 _ r0 hr0
    · intro j hj
      obtain ⟨v, hv⟩ := hbefore j hj
      refine ⟨v, ?_⟩
      rw [lookupOutcome_map order j (hcover j (Nat.lt_trans hj hr0))]
      exact hv
    · rw [lookupOutcome_map order r0 (hcover r0 hr0)]
      exact herr
  · intro r hr
    simp only [PyLocalExecutable.ExecutePerReplica, hlive, hlen, if_pos]
    exact mem_queues_submitAll e _ st r hr

/-- Witness for C4, the spec section 8 scenario: num_replicas = 3, devices
[0, 1, 2], replica 1 fails while replicas 0 and 2 succeed, and the completion
order [2, 1, 0] (replica 2 finishes first in time) still reports replica 1's
error; all three tasks were submitted to their device queues. -/
theorem executePerReplica_first_error_by_index_witness :
    ((⟨some ⟨⟨3⟩⟩, [0, 1, 2], none⟩ : PyLocalExecutable).executable =
      some ⟨⟨3⟩⟩) ∧
    ([([] : List PyLocalBuffer), [], []].length =
      (⟨⟨3⟩⟩ : LocalExecutable).build_options.num_replicas) ∧
    (∀ r, r < (⟨⟨3⟩⟩ : LocalExecutable).build_options.num_replicas →
      r ∈ [2, 1, 0]) ∧
    ((1 : Nat) < (⟨⟨3⟩⟩ : LocalExecutable).build_options.num_replicas) ∧
    (replicaTaskOutcome
        (fun r _ _ => if r = 1 then .error ⟨.internalError, "replica 1 failed"⟩
          else .ok defaultPyLocalBuffer) 1
        (devOf ⟨some ⟨⟨3⟩⟩, [0, 1, 2], none⟩ 1)
        ([([] : List PyLocalBuffer), [], []].getD 1 []) =
      .error ⟨.internalError, "replica 1 failed"⟩) ∧
    (∀ j, j < 1 →
      ∃ v, replicaTaskOutcome
        (fun r _ _ => if r = 1 then .error ⟨.internalError, "replica 1 failed"⟩
          else .ok defaultPyLocalBuffer) j
        (devOf ⟨some ⟨⟨3⟩⟩, [0, 1, 2], none⟩ j)
        ([([] : List PyLocalBuffer), [], []].getD j []) = .ok v) ∧
    (((⟨some ⟨⟨3⟩⟩, [0, 1, 2], none⟩ : PyLocalExecutable).ExecutePerReplica
        [[], [], []]
        (fun r _ _ => if r = 1 then .error ⟨.internalError, "replica 1 failed"⟩
          else .ok defaultPyLocalBuffer) [2, 1, 0] ⟨fun _ => []⟩).1 =
      .error ⟨.internalError, "replica 1 failed"⟩ ∧
     ∀ r, r < (⟨⟨3⟩⟩ : LocalExecutable).build_options.num_replicas →
      r ∈ ((⟨some ⟨⟨3⟩⟩, [0, 1, 2], none⟩ : PyLocalExecutable).ExecutePerReplica
        [[], [], []]
        (fun r _ _ => if r = 1 then .error ⟨.internalError, "replica 1 failed"⟩
          else .ok defaultPyLocalBuffer) [2, 1, 0] ⟨fun _ => []⟩).2.queues
        (devOf ⟨some ⟨⟨3⟩⟩, [0, 1, 2], none⟩ r)) :=
  ⟨rfl, rfl, by decide, by decide, rfl,
    fun j hj => by interval_cases j; exact ⟨defaultPyLocalBuffer, rfl⟩,
    executePerReplica_first_error_by_index
      ⟨some ⟨⟨3⟩⟩, [0, 1, 2], none⟩ ⟨⟨3⟩⟩ [[], [], []]
      (fun r _ _ => if r = 1 then .error ⟨.internalError, "replica 1 failed"⟩
        else .ok defaultPyLocalBuffer)
      [2, 1, 0] ⟨fun _ => []⟩ 1 ⟨.internalError, "replica 1 failed"⟩
      rfl rfl (by decide) (by decide) rfl
      (fun j hj => by interval_cases j; exact ⟨defaultPyLocalBuffer, rfl⟩)⟩

/-- C5: Delete() on handle i nulls only that handle's device-buffer reference
and client pointer — the node table and every other handle are unchanged —
and afterwards a node's device memory is retained exactly while some other
live handle still holds a shared reference into its sub-DAG: the subtree is
released by this Delete only if handle i held the last shared reference. -/
theorem delete_frame_and_release (s : OwnershipState) (i : Nat) :
    (deleteHandle s i).nodes = s.nodes ∧
    (∀ j, j ≠ i → (deleteHandle s i).handles[j]? = s.handles[j]?) ∧
    (∀ h : HandleRef, (deleteHandle s i).handles[i]? = some h →
      h.device_buffer = none ∧ h.client = none) ∧
    (∀ n, retained (deleteHandle s i) n ↔
      ∃ (j : Nat) (h : HandleRef) (rt : Nat), j ≠ i ∧
        s.handles[j]? = some h ∧ h.device_buffer = some rt ∧
          Reaches s.nodes rt n) := by
  refine ⟨rfl, ?_, ?_, ?_⟩
  · intro j hj
    simp only [deleteHandle]
    exact List.getElem?_set_ne (Ne.symm hj)
  · intro h hh
    simp only [deleteHandle] at hh
    by_cases hi : i < s.handles.length
    · rw [List.getElem?_set_self hi] at hh
      simp only [Option.some.injEq] at hh
      subst hh
      exact ⟨rfl, rfl⟩
    · rw [List.getElem?_eq_none (by simp only [List.length_set]; omega)] at hh
      exact Option.noConfusion hh
  · intro n
    constructor
    · rintro ⟨j, h, rt, hj, hdb, hreach⟩
      by_cases hji : j = i
      · rw [hji] at hj
        simp only [deleteHandle] at hj
        by_cases hi : i < s.handles.length
        · rw [List.getElem?_set_self hi] at hj
          simp only [Option.some.injEq] at hj
          subst hj
          exact absurd hdb (by simp)
        · rw [List.getElem?_eq_none
            (by simp only [List.length_set]; omega)] at hj
          exact Option.noConfusion hj
      · refine ⟨j, h, rt, hji, ?_, hdb, hreach⟩
        rw [← hj]
        simp only [deleteHandle]
        exact (List.getElem?_set_ne (Ne.symm hji)).symm
    · rintro ⟨j, h, rt, hji, hj, hdb, hreach⟩
      refine ⟨j, h, rt, ?_, hdb, hreach⟩
      simp only [deleteHandle]
      rw [List.getElem?_set_ne (Ne.symm hji)]
      exact hj

/-- C6: on one device's dedicated worker, of any two tasks in submission
order the earlier completes no later than the later begins (per-queue
execution strictly in submission order); and the timelines of distinct
device workers are mutually unconstrained: there are parameters under which
one device's task and the other's overlap in both directions, i.e. they run
concurrently. -/
theorem queue_ordering_and_concurrency :
    (∀ (t0 : Nat) (dur : Nat → Nat) (k1 k2 : Nat), k1 < k2 →
      finishTime t0 dur k1 ≤ startTime t0 dur k2) ∧
    (∃ (t1 : Nat) (dur1 : Nat → Nat) (t2 : Nat) (dur2 : Nat → Nat),
      startTime t1 dur1 0 < finishTime t2 dur2 0 ∧
      startTime t2 dur2 0 < finishTime t1 dur1 0) := by
  constructor
  · intro t0 dur k1 k2 h
    have heq : finishTime t0 dur k1 = startTime t0 dur (k1 + 1) := rfl
    rw [heq]
    exact startTime_le_startTime t0 dur h
  · exact ⟨0, fun _ => 2, 1, fun _ => 2, by decide, by decide⟩

/-- C7: converting a host value to a device buffer on a valid device ordinal
and back — ToPython after FromPython — reproduces the value bit-for-bit. -/
theorem fromPython_toPython_roundtrip
    (v : HostValue) (c : PyLocalClient) (d : Nat)
    (hd : d < c.device_count) :
    (PyLocalBuffer.FromPython v c d).bind PyLocalBuffer.ToPython = .ok v := by
  simp [PyLocalBuffer.FromPython, hd, Except.bind, PyLocalBuffer.ToPython,
    toHostValue_convertHostValue]

/-- Witness for C7: a tuple-shaped host value holding two arrays, on device
ordinal 1 of a 2-device client. -/
theorem fromPython_toPython_roundtrip_witness :
    ((1 : Nat) < (⟨2⟩ : PyLocalClient).device_count) ∧
    (PyLocalBuffer.FromPython
        (.tuple [.array [2] [1, 2], .array [] [3]]) ⟨2⟩ 1).bind
      PyLocalBuffer.ToPython = .ok (.tuple [.array [2] [1, 2], .array [] [3]]) :=
  ⟨by decide,
    fromPython_toPython_roundtrip (.tuple [.array [2] [1, 2], .array [] [3]])
      ⟨2⟩ 1 (by decide)⟩

/-- C8: destructuring a live tuple-shaped PyLocalBuffer with N element shapes
returns exactly N buffers, the k-th holding a new shared reference to the
already-existing k-th child sub-DAG (the child tree itself — no device data
is copied and no new device allocation is made), and re-grouping the N
buffers on the tuple's device ordinal reconstructs the original buffer, so
the contents are byte-identical to the originals. -/
theorem destructureTuple_shares_children_and_regroups
    (b : PyLocalBuffer) (d : Nat) (children : List PySharedDeviceBuffer)
    (es : List Shape)
    (hbuf : b.device_buffer = some (.tup d children))
    (hshape : b.on_host_shape = Shape.tuple es)
    (hlen : es.length = children.length) :
    b.DestructureTuple =
      .ok ((es.zip children).map fun p => ⟨p.1, some p.2, b.client⟩) ∧
    ((es.zip children).map fun p =>
      (⟨p.1, some p.2, b.client⟩ : PyLocalBuffer)).length = es.length ∧
    regroupTuple d b.client
      ((es.zip children).map fun p => ⟨p.1, some p.2, b.client⟩) = .ok b := by
  obtain ⟨bs, bd, bc⟩ := b
  simp only at hbuf hshape
  subst hbuf hshape
  refine ⟨?_, ?_, ?_⟩
  · simp [PyLocalBuffer.DestructureTuple, hlen]
  · simp [List.length_zip, hlen]
  · simp only [regroupTuple, collectTrees_map]
    rw [List.map_snd_zip es children (Nat.le_of_eq hlen.symm)]
    have hshapes : ((es.zip children).map fun p =>
        (⟨p.1, some p.2, bc⟩ : PyLocalBuffer)).map
          (fun b => b.on_host_shape) = es := by
      rw [List.map_map]
      have : ((fun b : PyLocalBuffer => b.on_host_shape) ∘
          fun p : Shape × PySharedDeviceBuffer =>
            (⟨p.1, some p.2, bc⟩ : PyLocalBuffer)) = Prod.fst := rfl
      rw [this]
      exact List.map_fst_zip es children (Nat.le_of_eq hlen)
    rw [hshapes]

/-- Witness for C8: a live two-element tuple buffer on device 0. -/
theorem destructureTuple_shares_children_and_regroups_witness :
    ((⟨Shape.tuple [Shape.array [1], Shape.array [2]],
        some (.tup 0 [.leaf 0 [1] [9], .leaf 0 [2] [8, 7]]),
        some ⟨1⟩⟩ : PyLocalBuffer).device_buffer =
      some (.tup 0 [.leaf 0 [1] [9], .leaf 0 [2] [8, 7]])) ∧
    ((⟨Shape.tuple [Shape.array [1], Shape.array [2]],
        some (.tup 0 [.leaf 0 [1] [9], .leaf 0 [2] [8, 7]]),
        some ⟨1⟩⟩ : PyLocalBuffer).on_host_shape =
      Shape.tuple [Shape.array [1], Shape.array [2]]) ∧
    ([Shape.array [1], Shape.array [2]].length =
      ([.leaf 0 [1] [9], .leaf 0 [2] [8, 7]] :
        List PySharedDeviceBuffer).length) ∧
    ((⟨Shape.tuple [Shape.array [1], Shape.array [2]],
        some (.tup 0 [.leaf 0 [1] [9], .leaf 0 [2] [8, 7]]),
        some ⟨1⟩⟩ : PyLocalBuffer).DestructureTuple =
      .ok (([Shape.array [1], Shape.array [2]].zip
          ([.leaf 0 [1] [9], .leaf 0 [2] [8, 7]] :
            List PySharedDeviceBuffer)).map
        fun p => ⟨p.1, some p.2, some ⟨1⟩⟩) ∧
     (([Shape.array [1], Shape.array [2]].zip
          ([.leaf 0 [1] [9], .leaf 0 [2] [8, 7]] :
            List PySharedDeviceBuffer)).map
        fun p => (⟨p.1, some p.2, some ⟨1⟩⟩ : PyLocalBuffer)).length =
       [Shape.array [1], Shape.array [2]].length ∧
     regroupTuple 0 (some ⟨1⟩)
        (([Shape.array [1], Shape.array [2]].zip
            ([.leaf 0 [1] [9], .leaf 0 [2] [8, 7]] :
              List PySharedDeviceBuffer)).map
          fun p => ⟨p.1, some p.2, some ⟨1⟩⟩) =
       .ok ⟨Shape.tuple [Shape.array [1], Shape.array [2]],
         some (.tup 0 [.leaf 0 [1] [9], .leaf 0 [2] [8, 7]]), some ⟨1⟩⟩) :=
  ⟨rfl, rfl, rfl,
    destructureTuple_shares_children_and_regroups
      ⟨Shape.tuple [Shape.array [1], Shape.array [2]],
        some (.tup 0 [.leaf 0 [1] [9], .leaf 0 [2] [8, 7]]), some ⟨1⟩⟩
      0 [.leaf 0 [1] [9], .leaf 0 [2] [8, 7]]
      [Shape.array [1], Shape.array [2]] rfl rfl rfl⟩

/-- C9: the replica→device assignment of a PyLocalExecutable is fixed at
construction and immutable for its lifetime: after any sequence of Execute,
ExecutePerReplica and Delete operations, device_assignment() and
DeviceOrdinals() return the same mapping as before. -/
theorem device_assignment_immutable (e : PyLocalExecutable)
    (ops : List ExecOp) :
    (ops.foldl applyOp e).device_assignment = e.device_assignment ∧
    (ops.foldl applyOp e).DeviceOrdinals = e.DeviceOrdinals := by
  suffices h : (ops.foldl applyOp e).device_assignment = e.device_assignment by
    exact ⟨h, by simp only [PyLocalExecutable.DeviceOrdinals, h]⟩
  induction ops generalizing e with
  | nil => rfl
  | cons op ops ih =>
    rw [List.foldl_cons, ih (applyOp e op)]
    cases op <;> rfl

/-- C10 counterexample: deleting a buffer whose shape is not the default
shape does not yield the default-constructed state — Delete() (lines 97-100)
leaves on_host_shape_ untouched, while PyLocalBuffer() default-constructs it
to the invalid shape. -/
theorem delete_not_default_counterexample :
    PyLocalBuffer.Delete
        ⟨Shape.array [2], some (.leaf 0 [2] [1, 2]), some ⟨1⟩⟩ ≠
      defaultPyLocalBuffer :=
  fun h => Shape.noConfusion (congrArg PyLocalBuffer.on_host_shape h)

/-- C10 (amended): after Delete() the device-buffer reference and client
pointer are null, exactly as in a default-constructed PyLocalBuffer, and
device_buffer() returns nullptr; but on_host_shape_ keeps its prior value,
so the whole state equals the default-constructed state only when the shape
was already the default; and Delete() is idempotent: a second call leaves
the handle in exactly the same state. -/
theorem delete_idempotent_and_fields_null (b : PyLocalBuffer) :
    b.Delete.device_buffer = defaultPyLocalBuffer.device_buffer ∧
    b.Delete.client = defaultPyLocalBuffer.client ∧
    b.Delete.on_host_shape = b.on_host_shape ∧
    b.Delete.Delete = b.Delete :=
  ⟨rfl, rfl, rfl, rfl⟩

end Xla
